import Mathlib

set_option maxRecDepth 100000

/-!
Verification of the Zule/Gatekeeper blind-token authorization core.

The definitions below are a shallow embedding of the blind-token subsystem:

* the Deno edge functions for token issuance (`generateBlindToken`,
  `signPayload`, `getAppSigningSecret`, the `serve` pipeline), revocation
  and consent management (`app-connections`), and
* the plpgsql functions of the schema migration (`check_rate_limit`,
  `revoke_blind_token`, `is_token_revoked`, `check_app_connection`,
  `authorize_app_connection`).

Machine integers are `Nat` with explicit reduction modulo `2 ^ 32` where the
32-bit semantics of SHA-256 matters; byte strings are `List Nat` with every
element below 256; database tables are association lists carried in explicit
state records; fallible operations return `Option` or a result variant.
`crypto.subtle`'s HMAC-SHA-256 and SHA-256 are embedded as executable
functions so that concrete tokens and derived secrets can be evaluated by
`decide` inside proofs.
-/

namespace Zule

/-! ## Bytes and UTF-8 encoding (`TextEncoder`) -/

/-- UTF-8 encoding of a single character, the byte sequence `TextEncoder`
produces for that code point. -/
def utf8Char (c : Char) : List Nat :=
  if c.toNat < 128 then [c.toNat]
  else if c.toNat < 2048 then
    [192 ||| (c.toNat >>> 6), 128 ||| (c.toNat &&& 63)]
  else if c.toNat < 65536 then
    [224 ||| (c.toNat >>> 12), 128 ||| ((c.toNat >>> 6) &&& 63),
     128 ||| (c.toNat &&& 63)]
  else
    [240 ||| (c.toNat >>> 18), 128 ||| ((c.toNat >>> 12) &&& 63),
     128 ||| ((c.toNat >>> 6) &&& 63), 128 ||| (c.toNat &&& 63)]

/-- UTF-8 encoding of a string: the embedding of `TextEncoder.encode`. -/
def utf8 (s : String) : List Nat :=
  (s.data.map utf8Char).flatten

/-! ## SHA-256 (the `crypto.subtle.digest('SHA-256', _)` primitive) -/

/-- Truncation to a 32-bit word. -/
def w32 (x : Nat) : Nat := x % 4294967296

/-- Right rotation of a 32-bit word. -/
def rotr (n x : Nat) : Nat := w32 ((x >>> n) ||| (x <<< (32 - n)))

/-- Bitwise complement of a 32-bit word. -/
def compl32 (x : Nat) : Nat := x ^^^ 4294967295

/-- SHA-256 `Ch` function. -/
def sha256Ch (x y z : Nat) : Nat := (x &&& y) ^^^ ((compl32 x) &&& z)

/-- SHA-256 `Maj` function. -/
def sha256Maj (x y z : Nat) : Nat := (x &&& y) ^^^ (x &&& z) ^^^ (y &&& z)

/-- SHA-256 big sigma 0. -/
def bsig0 (x : Nat) : Nat := (rotr 2 x) ^^^ (rotr 13 x) ^^^ (rotr 22 x)

/-- SHA-256 big sigma 1. -/
def bsig1 (x : Nat) : Nat := (rotr 6 x) ^^^ (rotr 11 x) ^^^ (rotr 25 x)

/-- SHA-256 small sigma 0. -/
def ssig0 (x : Nat) : Nat := (rotr 7 x) ^^^ (rotr 18 x) ^^^ (x >>> 3)

/-- SHA-256 small sigma 1. -/
def ssig1 (x : Nat) : Nat := (rotr 17 x) ^^^ (rotr 19 x) ^^^ (x >>> 10)

/-- The SHA-256 round constants. -/
def sha256K : List Nat :=
  [1116352408, 1899447441, 3049323471, 3921009573, 961987163, 1508970993,
   2453635748, 2870763221, 3624381080, 310598401, 607225278, 1426881987,
   1925078388, 2162078206, 2614888103, 3248222580, 3835390401, 4022224774,
   264347078, 604807628, 770255983, 1249150122, 1555081692, 1996064986,
   2554220882, 2821834349, 2952996808, 3210313671, 3336571891, 3584528711,
   113926993, 338241895, 666307205, 773529912, 1294757372, 1396182291,
   1695183700, 1986661051, 2177026350, 2456956037, 2730485921, 2820302411,
   3259730800, 3345764771, 3516065817, 3600352804, 4094571909, 275423344,
   430227734, 506948616, 659060556, 883997877, 958139571, 1322822218,
   1537002063, 1747873779, 1955562222, 2024104815, 2227730452, 2361852424,
   2428436474, 2756734187, 3204031479, 3329325298]

/-- The SHA-256 initial hash state. -/
def sha256H0 : List Nat :=
  [1779033703, 3144134277, 1013904242, 2773480762,
   1359893119, 2600822924, 528734635, 1541459225]

/-- Big-endian 32-bit words from a byte list (four bytes per word). -/
def toWords : List Nat → List Nat
  | b0 :: b1 :: b2 :: b3 :: rest =>
      ((b0 <<< 24) ||| (b1 <<< 16) ||| (b2 <<< 8) ||| b3) :: toWords rest
  | _ => []

/-- One extension step of the SHA-256 message schedule: appends the next word. -/
def scheduleStep (ws : List Nat) : List Nat :=
  ws ++ [w32 (ssig1 (ws.getD (ws.length - 2) 0) + ws.getD (ws.length - 7) 0 +
              ssig0 (ws.getD (ws.length - 15) 0) + ws.getD (ws.length - 16) 0)]

/-- The 64-word SHA-256 message schedule of a 16-word block. -/
def msgSchedule (block : List Nat) : List Nat :=
  scheduleStep^[48] block

/-- One SHA-256 compression round on the 8-word working state. -/
def sha256Round (st : List Nat) (k w : Nat) : List Nat :=
  match st with
  | [a, b, c, d, e, f, g, h] =>
      let t1 := w32 (h + bsig1 e + sha256Ch e f g + k + w)
      let t2 := w32 (bsig0 a + sha256Maj a b c)
      [w32 (t1 + t2), a, b, c, w32 (d + t1), e, f, g]
  | other => other

/-- SHA-256 compression of one 64-byte block into the running hash state. -/
def compressBlock (h : List Nat) (block : List Nat) : List Nat :=
  let ws := msgSchedule (toWords block)
  let st := (sha256K.zip ws).foldl (fun s kw => sha256Round s kw.1 kw.2) h
  (h.zip st).map (fun p => w32 (p.1 + p.2))

/-- Big-endian bytes of a Nat, `n` bytes wide. -/
def bytesBE (width v : Nat) : List Nat :=
  (List.range width).map (fun i => (v >>> (8 * (width - 1 - i))) &&& 255)

/-- SHA-256 message padding: a `0x80` byte, zeros to 56 mod 64, then the
bit length as a 64-bit big-endian integer. -/
def padMessage (msg : List Nat) : List Nat :=
  msg ++ [128] ++ List.replicate ((119 - (msg.length % 64)) % 64) 0 ++
    bytesBE 8 (8 * msg.length)

/-- Split a byte list into 64-byte blocks (fuel-driven structural recursion,
with the list length as fuel, so the definition reduces in the kernel). -/
def chunks64Go : Nat → List Nat → List (List Nat)
  | _, [] => []
  | 0, l => [l]
  | fuel + 1, l => (l.take 64) :: chunks64Go fuel (l.drop 64)

/-- Split a byte list into 64-byte blocks. -/
def chunks64 (l : List Nat) : List (List Nat) :=
  chunks64Go l.length l

/-- Serialize a 32-bit-word hash state to big-endian bytes. -/
def wordsToBytes (ws : List Nat) : List Nat :=
  (ws.map (bytesBE 4)).flatten

/-- SHA-256 of a byte list, as 32 bytes: the embedding of
`crypto.subtle.digest('SHA-256', data)`. -/
def sha256 (msg : List Nat) : List Nat :=
  wordsToBytes ((chunks64 (padMessage msg)).foldl compressBlock sha256H0)

/-- HMAC-SHA-256 over byte lists: the embedding of importing a raw key and
calling `crypto.subtle.sign('HMAC', key, message)`.  A key longer than the
64-byte block is first hashed; the key is then zero-padded to 64 bytes. -/
def hmacSha256 (key msg : List Nat) : List Nat :=
  let k0 := if 64 < key.length then sha256 key else key
  let kp := k0 ++ List.replicate (64 - k0.length) 0
  sha256 ((kp.map (fun b => b ^^^ 92)) ++ sha256 ((kp.map (fun b => b ^^^ 54)) ++ msg))

/-- Sanity check against the FIPS 180-2 test vector for "abc". -/
theorem sha256_vector_abc :
    sha256 (utf8 "abc") =
      [186, 120, 22, 191, 143, 1, 207, 234, 65, 65, 64, 222, 93, 174, 34, 35,
       176, 3, 97, 163, 150, 23, 122, 156, 180, 16, 255, 97, 242, 0, 21, 173] := by
  decide

/-- Sanity check against the SHA-256 digest of the empty message. -/
theorem sha256_vector_empty :
    sha256 [] =
      [227, 176, 196, 66, 152, 252, 28, 20, 154, 251, 244, 200, 153, 111, 185,
       36, 39, 174, 65, 228, 100, 155, 147, 76, 164, 149, 153, 27, 120, 82,
       184, 85] := by
  decide

/-! ## Base64 (the deno std `encoding/base64.ts` `encode` used by the source) -/

/-- The standard base64 alphabet. -/
def b64Alphabet : List Char :=
  "ABCDEFGHIJKLMNOPQRSTUVWXYZabcdefghijklmnopqrstuvwxyz0123456789+/".data

/-- Character for a 6-bit group. -/
def b64Char (n : Nat) : Char := b64Alphabet.getD n 'A'

/-- Standard base64 of a byte list, as characters, with `'='` padding:
the embedding of the deno std `encode`. -/
def base64Chunks : List Nat → List Char
  | a :: b :: c :: rest =>
      b64Char (a >>> 2) :: b64Char (((a &&& 3) <<< 4) ||| (b >>> 4)) ::
      b64Char (((b &&& 15) <<< 2) ||| (c >>> 6)) :: b64Char (c &&& 63) ::
      base64Chunks rest
  | [a, b] =>
      [b64Char (a >>> 2), b64Char (((a &&& 3) <<< 4) ||| (b >>> 4)),
       b64Char ((b &&& 15) <<< 2), '=']
  | [a] =>
      [b64Char (a >>> 2), b64Char ((a &&& 3) <<< 4), '=', '=']
  | [] => []

/-- Standard base64 encoding, as a string. -/
def base64Encode (bs : List Nat) : String := ⟨base64Chunks bs⟩

/-- Modelled from the spec: the token wire-format clause of the spec names
`base64url` (RFC 4648 section 5, URL-safe alphabet, padding omitted, as the
deno std `encoding/base64url` encoder produces it).  The issuance source
contains no base64url encoder; this definition exists only to compare the
spec's stated wire format against the one the source emits. -/
def base64urlEncode (bs : List Nat) : String :=
  ⟨((base64Chunks bs).filter (fun c => c ≠ '=')).map
    (fun c => if c = '+' then '-' else if c = '/' then '_' else c)⟩

/-- Index of a character in the base64 alphabet. -/
def b64CharVal (c : Char) : Option Nat :=
  let i := b64Alphabet.indexOf c
  if i < 64 then some i else none

/-- Modelled from the spec: canonical base64 decoding (characters), the
inverse a verifying resource server applies to the payload segment.  The
issuance source only encodes; decoding is part of the spec's verification
contract. -/
def base64DecodeChars : List Char → Option (List Nat)
  | c0 :: c1 :: c2 :: c3 :: rest =>
      if c3 = '=' then
        if rest = [] then
          match b64CharVal c0, b64CharVal c1 with
          | some v0, some v1 =>
              if c2 = '=' then some [(v0 <<< 2) ||| (v1 >>> 4)]
              else
                match b64CharVal c2 with
                | some v2 =>
                    some [(v0 <<< 2) ||| (v1 >>> 4),
                          ((v1 &&& 15) <<< 4) ||| (v2 >>> 2)]
                | none => none
          | _, _ => none
        else none
      else
        match b64CharVal c0, b64CharVal c1, b64CharVal c2, b64CharVal c3,
              base64DecodeChars rest with
        | some v0, some v1, some v2, some v3, some tail =>
            some (((v0 <<< 2) ||| (v1 >>> 4)) ::
                  (((v1 &&& 15) <<< 4) ||| (v2 >>> 2)) ::
                  (((v2 &&& 3) <<< 6) ||| v3) :: tail)
        | _, _, _, _, _ => none
  | [] => some []
  | _ => none

/-- Canonical base64 decoding of a string. -/
def base64Decode (s : String) : Option (List Nat) := base64DecodeChars s.data

/-! ## Splitting a token at its dot -/

/-- Split a character list at the first `'.'`. -/
def splitDotChars : List Char → Option (List Char × List Char)
  | [] => none
  | c :: cs =>
      if c = '.' then some ([], cs)
      else
        match splitDotChars cs with
        | some (p, s) => some (c :: p, s)
        | none => none

/-- Split a string at the first `'.'`. -/
def splitDot (s : String) : Option (String × String) :=
  (splitDotChars s.data).map (fun p => (⟨p.1⟩, ⟨p.2⟩))

/-! ## Blind token payload and issuance (`generateBlindToken`, `signPayload`,
`getAppSigningSecret` of the issuance endpoint) -/

/-- The blind-token payload: exactly the six fields of the source's
`BlindTokenPayload` interface, in its declaration order. -/
structure BlindTokenPayload where
  iat : Nat
  exp : Nat
  tier : String
  nonce : String
  app : String
  v : Nat
deriving DecidableEq

/-- Lower-case hexadecimal digit. -/
def hexDigit (n : Nat) : Char := "0123456789abcdef".data.getD n '0'

/-- JSON string escaping of one character, as `JSON.stringify` performs it. -/
def jsonEscapeChar (c : Char) : List Char :=
  if c = '"' then ['\\', '"']
  else if c = '\\' then ['\\', '\\']
  else if c = Char.ofNat 8 then ['\\', 'b']
  else if c = Char.ofNat 9 then ['\\', 't']
  else if c = Char.ofNat 10 then ['\\', 'n']
  else if c = Char.ofNat 12 then ['\\', 'f']
  else if c = Char.ofNat 13 then ['\\', 'r']
  else if c.toNat < 32 then
    ['\\', 'u', '0', '0', hexDigit (c.toNat / 16), hexDigit (c.toNat % 16)]
  else [c]

/-- A JSON string literal for `s`, quotes included. -/
def jsonString (s : String) : String :=
  "\"" ++ ⟨(s.data.map jsonEscapeChar).flatten⟩ ++ "\""

/-- The exact text `JSON.stringify` produces for a `BlindTokenPayload` object:
the six fields in declaration order and nothing else. -/
def jsonOfPayload (p : BlindTokenPayload) : String :=
  "\x7b\"iat\":" ++ toString p.iat ++ ",\"exp\":" ++ toString p.exp ++
  ",\"tier\":" ++ jsonString p.tier ++ ",\"nonce\":" ++ jsonString p.nonce ++
  ",\"app\":" ++ jsonString p.app ++ ",\"v\":" ++ toString p.v ++ "\x7d"

/-- Embedding of the endpoint's `signPayload`: base64 of the HMAC-SHA-256 of
the payload string under the UTF-8 bytes of the secret. -/
def signPayload (payload secret : String) : String :=
  base64Encode (hmacSha256 (utf8 secret) (utf8 payload))

/-- Embedding of the endpoint's `hashToken`: base64 of the SHA-256 of the
full token, for the token log. -/
def hashToken (token : String) : String :=
  base64Encode (sha256 (utf8 token))

/-- Embedding of `getAppSigningSecret` (identical logic in both issuance
endpoint versions, `part_004` and `part_007`): the default/legacy app
`"xenon-engine"` — and, because the JavaScript guard `!appId` also accepts
it, the empty app id — receives the master secret
(`DEFAULT_BLIND_TOKEN_SECRET`) directly; every other app id receives
`base64(HMAC-SHA-256(master_secret, "app:" ++ appId))`. -/
def getAppSigningSecret (masterSecret appId : String) : String :=
  if appId = "xenon-engine" ∨ appId = "" then masterSecret
  else base64Encode (hmacSha256 (utf8 masterSecret) (utf8 ("app:" ++ appId)))

/-- Modelled from the spec: the spec's tenant-secret derivation clause,
`HMAC(master_secret, "tenant:" || tenant_id)` for every tenant other than
the reserved default.  The source has no such derivation; this definition
exists only to compare the spec's formula against `getAppSigningSecret`. -/
def getAppSigningSecretSpec (masterSecret appId : String) : String :=
  if appId = "xenon-engine" ∨ appId = "" then masterSecret
  else base64Encode (hmacSha256 (utf8 masterSecret) (utf8 ("tenant:" ++ appId)))

/-- Embedding of the endpoint's `generateBlindToken`.  `Date.now()` and
`crypto.randomUUID()` are effects of the runtime; the current time `now`
(in seconds) and the fresh `nonce` are therefore explicit arguments.  The
result is the issued token string together with its payload. -/
def generateBlindToken (tier appId : String) (expirySeconds tokenVersion : Nat)
    (signingSecret : String) (now : Nat) (nonce : String) :
    String × BlindTokenPayload :=
  let payload : BlindTokenPayload :=
    { iat := now, exp := now + expirySeconds, tier := tier, nonce := nonce,
      app := appId, v := tokenVersion }
  let payloadB64 := base64Encode (utf8 (jsonOfPayload payload))
  let signature := signPayload payloadB64 signingSecret
  (payloadB64 ++ "." ++ signature, payload)

/-- Modelled from the spec: resource-server verification of a blind token —
split the token at the dot, recompute the HMAC-SHA-256 of the payload
segment under the verifier's secret, reject on mismatch, and on success
return the base64-decoded payload bytes.  (The spec's further expiry and
revocation-ledger checks operate on the decoded payload and the ledger and
are independent of the signature check modelled here.) -/
def verifyBlindToken (token secret : String) : Option (List Nat) :=
  match splitDot token with
  | none => none
  | some (p64, sig) =>
      if signPayload p64 secret = sig then base64Decode p64 else none

/-! ## Supporting lemmas: base64 characters, token splitting, UTF-8 bounds -/

theorem b64Char_bounded : ∀ n, n < 64 → b64Char n ≠ '.' ∧ b64Char n ≠ '=' := by
  decide

theorem b64Alphabet_length : b64Alphabet.length = 64 := by decide

theorem b64Char_of_ge (n : Nat) (h : 64 ≤ n) : b64Char n = 'A' := by
  unfold b64Char
  rw [List.getD_eq_getElem?_getD, List.getElem?_eq_none (by rw [b64Alphabet_length]; omega)]
  rfl

theorem b64Char_ne_dot (n : Nat) : b64Char n ≠ '.' := by
  by_cases h : n < 64
  · exact (b64Char_bounded n h).1
  · rw [b64Char_of_ge n (by omega)]; decide

theorem b64Char_ne_pad (n : Nat) : b64Char n ≠ '=' := by
  by_cases h : n < 64
  · exact (b64Char_bounded n h).2
  · rw [b64Char_of_ge n (by omega)]; decide

theorem base64Chunks_ne_dot : ∀ (bs : List Nat) (x : Char), x ∈ base64Chunks bs → x ≠ '.'
  | a :: b :: c :: rest, x, hx => by
      simp only [base64Chunks, List.mem_cons] at hx
      rcases hx with rfl | rfl | rfl | rfl | hx
      · exact b64Char_ne_dot _
      · exact b64Char_ne_dot _
      · exact b64Char_ne_dot _
      · exact b64Char_ne_dot _
      · exact base64Chunks_ne_dot rest x hx
  | [a, b], x, hx => by
      simp only [base64Chunks, List.mem_cons, List.not_mem_nil, or_false] at hx
      rcases hx with rfl | rfl | rfl | rfl
      · exact b64Char_ne_dot _
      · exact b64Char_ne_dot _
      · exact b64Char_ne_dot _
      · decide
  | [a], x, hx => by
      simp only [base64Chunks, List.mem_cons, List.not_mem_nil, or_false] at hx
      rcases hx with rfl | rfl | rfl | rfl
      · exact b64Char_ne_dot _
      · exact b64Char_ne_dot _
      · decide
      · decide
  | [], x, hx => by simp [base64Chunks] at hx

theorem splitDotChars_append (a b : List Char) (ha : ∀ x ∈ a, x ≠ '.') :
    splitDotChars (a ++ '.' :: b) = some (a, b) := by
  induction a with
  | nil => simp [splitDotChars]
  | cons y ys ih =>
      have hy : y ≠ '.' := ha y (List.mem_cons_self y ys)
      have ih' := ih (fun x hx => ha x (List.mem_cons_of_mem y hx))
      simp only [List.cons_append, splitDotChars, if_neg hy, List.append_eq, ih']

theorem splitDot_token (p sig : String) (hp : ∀ x ∈ p.data, x ≠ '.') :
    splitDot (p ++ "." ++ sig) = some (p, sig) := by
  unfold splitDot
  have hdata : (p ++ "." ++ sig).data = p.data ++ '.' :: sig.data := by
    simp [String.data_append]
  rw [hdata, splitDotChars_append p.data sig.data hp]
  rfl

theorem char_toNat_lt (c : Char) : c.toNat < 1114112 := by
  rcases c.valid with h | ⟨_, h2⟩
  · exact Nat.lt_trans h (by decide)
  · exact h2

theorem shr_lt_256 (m c bound : Nat) (hb : 256 * 2 ^ c = bound) (h : m < bound) :
    m >>> c < 2 ^ 8 := by
  rw [Nat.shiftRight_eq_div_pow]
  have hk : 0 < 2 ^ c := Nat.two_pow_pos c
  rw [Nat.div_lt_iff_lt_mul hk]
  calc m < bound := h
    _ = 2 ^ 8 * 2 ^ c := by rw [← hb]; norm_num

theorem utf8Char_lt_256 (c : Char) : ∀ x ∈ utf8Char c, x < 256 := by
  have hc : c.toNat < 1114112 := char_toNat_lt c
  have h256 : (256 : Nat) = 2 ^ 8 := by decide
  unfold utf8Char
  intro x hx
  split at hx
  · simp only [List.mem_singleton] at hx; omega
  · split at hx
    · simp only [List.mem_cons, List.not_mem_nil, or_false] at hx
      rcases hx with rfl | rfl
      · rw [h256]
        exact Nat.or_lt_two_pow (by decide) (shr_lt_256 _ 6 16384 (by norm_num) (by omega))
      · rw [h256]
        exact Nat.or_lt_two_pow (by decide) (Nat.and_lt_two_pow _ (by decide))
    · split at hx
      · simp only [List.mem_cons, List.not_mem_nil, or_false] at hx
        rcases hx with rfl | rfl | rfl
        · rw [h256]
          exact Nat.or_lt_two_pow (by decide)
            (shr_lt_256 _ 12 1048576 (by norm_num) (by omega))
        · rw [h256]
          exact Nat.or_lt_two_pow (by decide) (Nat.and_lt_two_pow _ (by decide))
        · rw [h256]
          exact Nat.or_lt_two_pow (by decide) (Nat.and_lt_two_pow _ (by decide))
      · simp only [List.mem_cons, List.not_mem_nil, or_false] at hx
        rcases hx with rfl | rfl | rfl | rfl
        · rw [h256]
          exact Nat.or_lt_two_pow (by decide)
            (shr_lt_256 _ 18 67108864 (by norm_num) (by omega))
        · rw [h256]
          exact Nat.or_lt_two_pow (by decide) (Nat.and_lt_two_pow _ (by decide))
        · rw [h256]
          exact Nat.or_lt_two_pow (by decide) (Nat.and_lt_two_pow _ (by decide))
        · rw [h256]
          exact Nat.or_lt_two_pow (by decide) (Nat.and_lt_two_pow _ (by decide))

theorem utf8_lt_256 (s : String) : ∀ x ∈ utf8 s, x < 256 := by
  intro x hx
  unfold utf8 at hx
  rw [List.mem_flatten] at hx
  obtain ⟨l, hl, hxl⟩ := hx
  rw [List.mem_map] at hl
  obtain ⟨c, _, rfl⟩ := hl
  exact utf8Char_lt_256 c x hxl

/-! ## Base64 decode/encode roundtrip -/

theorem b64CharVal_b64Char : ∀ v, v < 64 → b64CharVal (b64Char v) = some v := by
  decide

theorem b64_single : ∀ x, x < 256 →
    (x >>> 2 < 64) ∧ ((x &&& 63) < 64) ∧ ((x &&& 3) < 4) ∧ ((x &&& 15) < 16) ∧
    (x >>> 4 < 16) ∧ (x >>> 6 < 4) ∧
    ((((x >>> 2) <<< 2) ||| (x &&& 3)) = x) ∧
    ((((x >>> 4) <<< 4) ||| (x &&& 15)) = x) ∧
    ((((x >>> 6) <<< 6) ||| (x &&& 63)) = x) ∧
    (((x &&& 15) <<< 2) < 64) ∧ ((((x &&& 15) <<< 2) >>> 2) = x &&& 15) ∧
    (((x &&& 3) <<< 4) < 64) ∧ ((((x &&& 3) <<< 4) >>> 4) = x &&& 3) := by
  decide

theorem b64_fourbit : ∀ p, p < 4 → ∀ q, q < 16 →
    (((p <<< 4) ||| q) < 64) ∧ (((p <<< 4) ||| q) >>> 4 = p) ∧
    (((p <<< 4) ||| q) &&& 15 = q) := by
  decide

theorem b64_twobit : ∀ p, p < 16 → ∀ q, q < 4 →
    (((p <<< 2) ||| q) < 64) ∧ (((p <<< 2) ||| q) >>> 2 = p) ∧
    (((p <<< 2) ||| q) &&& 3 = q) := by
  decide

theorem base64_roundtrip : ∀ (bs : List Nat), (∀ x ∈ bs, x < 256) →
    base64DecodeChars (base64Chunks bs) = some bs
  | [], _ => rfl
  | [a], h => by
      obtain ⟨s1, s2, s3, s4, s5, s6, s7, s8, s9, s10, s11, s12, s13⟩ :=
        b64_single a (h a (by simp))
      simp only [base64Chunks, base64DecodeChars, if_pos rfl,
        b64CharVal_b64Char _ s1, b64CharVal_b64Char _ s12]
      rw [s13, s7]
      simp
  | [a, b], h => by
      obtain ⟨a1, a2, a3, a4, a5, a6, a7, a8, a9, a10, a11, a12, a13⟩ :=
        b64_single a (h a (by simp))
      obtain ⟨b1, b2, b3, b4, b5, b6, b7, b8, b9, b10, b11, b12, b13⟩ :=
        b64_single b (h b (by simp))
      obtain ⟨f1, f2, f3⟩ := b64_fourbit (a &&& 3) a3 (b >>> 4) b5
      have hne : b64Char ((b &&& 15) <<< 2) ≠ '=' := b64Char_ne_pad _
      simp only [base64Chunks, base64DecodeChars, if_pos rfl, if_neg hne,
        b64CharVal_b64Char _ a1, b64CharVal_b64Char _ f1, b64CharVal_b64Char _ b10]
      rw [f2, a7, f3, b11, b8]
      simp
  | a :: b :: c :: rest, h => by
      obtain ⟨a1, a2, a3, a4, a5, a6, a7, a8, a9, a10, a11, a12, a13⟩ :=
        b64_single a (h a (by simp))
      obtain ⟨b1, b2, b3, b4, b5, b6, b7, b8, b9, b10, b11, b12, b13⟩ :=
        b64_single b (h b (by simp))
      obtain ⟨c1, c2, c3, c4, c5, c6, c7, c8, c9, c10, c11, c12, c13⟩ :=
        b64_single c (h c (by simp))
      obtain ⟨f1, f2, f3⟩ := b64_fourbit (a &&& 3) a3 (b >>> 4) b5
      obtain ⟨t1, t2, t3⟩ := b64_twobit (b &&& 15) b4 (c >>> 6) c6
      have ih := base64_roundtrip rest (fun x hx => h x (by simp [hx]))
      have hne : b64Char (c &&& 63) ≠ '=' := b64Char_ne_pad _
      simp only [base64Chunks, base64DecodeChars, if_neg hne,
        b64CharVal_b64Char _ a1, b64CharVal_b64Char _ f1, b64CharVal_b64Char _ t1,
        b64CharVal_b64Char _ c2, ih]
      rw [f2, a7, f3, t2, b8, t3, c9]

/-- Decoding the base64 encoding of a byte list recovers the bytes. -/
theorem base64Decode_base64Encode (bs : List Nat) (h : ∀ x ∈ bs, x < 256) :
    base64Decode (base64Encode bs) = some bs :=
  base64_roundtrip bs h

/-- Verifying a well-formed two-segment token reduces to the signature
comparison followed by payload decoding. -/
theorem verifyBlindToken_eq (p64 sig secret : String)
    (hp : ∀ x ∈ p64.data, x ≠ '.') :
    verifyBlindToken (p64 ++ "." ++ sig) secret =
      if signPayload p64 secret = sig then base64Decode p64 else none := by
  unfold verifyBlindToken
  rw [splitDot_token p64 sig hp]

/-! ## Database state: the tables of the schema migration that the
blind-token core touches -/

/-- A `rate_limits` row. -/
structure RateBucket where
  identifier : String
  action : String
  window_start : Int
  count : Int
deriving DecidableEq

/-- The result row of `check_rate_limit`. -/
structure RateLimitResult where
  allowed : Bool
  current_count : Int
  reset_at : Int
deriving DecidableEq

/-- A `registered_apps` row (the columns the blind-token core reads or
writes).  `INTEGER` columns read through JavaScript `||` defaults are
`Nat` with `0` standing for SQL `NULL` as well — both are falsy in the
endpoint's `appConfig.field || DEFAULT` reads. -/
structure RegisteredApp where
  uuid : Nat
  app_id : String
  app_name : String
  is_active : Bool
  is_verified : Bool
  token_expiry_seconds : Nat
  token_version : Nat
  shared_secret_hash : String
  rate_limit_tokens_per_hour : Nat
  allowed_scopes : Option (List String)
  allowed_origins : List String
  total_tokens_issued : Int
  total_users_connected : Int
deriving DecidableEq

/-- A `user_app_connections` row: the consent record. -/
structure ConnectionRow where
  id : Nat
  user_id : String
  app_uuid : Nat
  is_active : Bool
  granted_scopes : List String
  revoked_at : Option Int
  revoked_by : Option String
  tokens_issued : Int
  last_used_at : Option Int
  authorized_at : Int
deriving DecidableEq

/-- A `blind_token_log` row. -/
structure TokenLogRow where
  id : Nat
  user_id : String
  token_nonce : String
  token_hash : String
  issued_at : Int
  expires_at : Int
  revoked_at : Option Int
  revocation_reason : Option String
  tier_at_issuance : String
deriving DecidableEq

/-- An `audit_logs` row (the fields the core writes). -/
structure AuditRow where
  user_id : Option String
  action : String
  action_category : String
deriving DecidableEq

/-- The shared datastore of the blind-token core.  (`user_profiles` is read
through `get_user_tier_info`, whose result the issuance pipeline takes as an
argument; its `last_token_issued_at` timestamp write is the one effect left
out of the state.) -/
structure GatekeeperDB where
  registeredApps : List RegisteredApp
  connections : List ConnectionRow
  rateBuckets : List RateBucket
  tokenLog : List TokenLogRow
  appTokenLog : List (Option Nat × Option Nat × String)
  auditLog : List AuditRow
deriving DecidableEq

/-! ## `check_rate_limit` (migration lines 587-635) -/

/-- Postgres `date_trunc('minute', t)` on an epoch-seconds timestamp. -/
def truncMinute (t : Int) : Int := t - t % 60

/-- The `SELECT COALESCE(SUM(count), 0)` of `check_rate_limit`: total count
over this identifier/action in buckets strictly newer than the cutoff. -/
def rateLimitCount (buckets : List RateBucket) (ident act : String)
    (cutoff : Int) : Int :=
  ((buckets.filter (fun b =>
      b.identifier == ident && b.action == act && decide (cutoff < b.window_start))).map
    (fun b => b.count)).sum

/-- The `INSERT ... ON CONFLICT (identifier, action, window_start) DO UPDATE
SET count = count + 1` of `check_rate_limit`: thanks to the table's unique
key, it increments the one conflicting row or inserts a fresh row with
count 1. -/
def upsertBucket (ident act : String) (ws : Int) : List RateBucket → List RateBucket
  | [] => [⟨ident, act, ws, 1⟩]
  | b :: bs =>
      if b.identifier == ident && b.action == act && b.window_start == ws then
        { b with count := b.count + 1 } :: bs
      else
        b :: upsertBucket ident act ws bs

/-- Embedding of the plpgsql `check_rate_limit`: a `SELECT` of the current
count over the lookback window, then — only when allowed — the upsert
increment, exactly in the statement order of the source. -/
def check_rate_limit (buckets : List RateBucket) (now : Int) (ident act : String)
    (maxReq windowSec : Int) : RateLimitResult × List RateBucket :=
  let cutoff := now - windowSec
  let cur := rateLimitCount buckets ident act cutoff
  if maxReq ≤ cur then
    ({ allowed := false, current_count := cur, reset_at := cutoff + windowSec },
     buckets)
  else
    ({ allowed := true, current_count := cur + 1, reset_at := now + windowSec },
     upsertBucket ident act (truncMinute now) buckets)

/-- Modelled from the spec: the time at which the oldest bucket still
contributing to the current count expires out of the lookback window — what
the spec says the deny-path `reset_at` communicates.  Stated only to compare
against the `reset_at` the source computes. -/
def oldestContributingExpiry (buckets : List RateBucket) (ident act : String)
    (cutoff windowSec : Int) : Option Int :=
  (((buckets.filter (fun b =>
      b.identifier == ident && b.action == act && decide (cutoff < b.window_start))).map
    (fun b => b.window_start)).min?).map (fun w => w + windowSec)

/-! ## `revoke_blind_token`, `is_token_revoked` (migration lines 701-740) -/

/-- The effect of the UPDATE statement inside `revoke_blind_token`:
`UPDATE blind_token_log SET revoked_at = NOW(), revocation_reason = reason
WHERE token_nonce = nonce AND revoked_at IS NULL`.  This is the write the
function attempts before its RETURN statement raises (see
`revoke_blind_token`), so it is also the write that ends up rolled back. -/
def revoke_blind_token_update (rows : List TokenLogRow) (now : Int)
    (nonce reason : String) : List TokenLogRow :=
  rows.map (fun r =>
    if r.token_nonce == nonce && r.revoked_at.isNone then
      { r with revoked_at := some now, revocation_reason := some reason }
    else r)

/-- Embedding of the plpgsql `revoke_blind_token`.  The body runs the
UPDATE (`revoke_blind_token_update`), reads `ROW_COUNT` into `v_updated` —
declared `BOOLEAN`, so the bigint is I/O-coerced to a boolean — and then
executes `RETURN v_updated > 0`.  PostgreSQL has no `boolean > integer`
operator (compare `revoke_app_connection`, whose `v_updated` is declared
`INTEGER` for the same RETURN), so the RETURN raises `undefined_function`
(42883) on every call; the error aborts the function and rolls the UPDATE
back.  The observable result is therefore always the error marker `none`
together with the table unchanged. -/
def revoke_blind_token (rows : List TokenLogRow) (now : Int)
    (nonce reason : String) : Option Bool × List TokenLogRow :=
  let _updated := revoke_blind_token_update rows now nonce reason
  let _rowCount : Int :=
    (rows.filter (fun r => r.token_nonce == nonce && r.revoked_at.isNone)).length
  (none, rows)

/-- Embedding of the plpgsql `is_token_revoked`: `SELECT revoked_at IS NOT
NULL INTO v_revoked ... WHERE token_nonce = nonce; RETURN
COALESCE(v_revoked, FALSE)` — a missing row leaves the variable NULL, and
the COALESCE turns that into FALSE rather than an error. -/
def is_token_revoked (rows : List TokenLogRow) (nonce : String) : Bool :=
  match rows.find? (fun r => r.token_nonce == nonce) with
  | none => false
  | some r => r.revoked_at.isSome

/-! ## Consent functions (`check_app_connection`,
`authorize_app_connection`, migration lines 894-958 and 1074-1100) -/

/-- Embedding of `check_app_connection`: resolve the app UUID among active
registered apps; with it, return the first matching connection row as
`(has_connection, connection_id, granted_scopes)` where `has_connection`
is the row's `is_active`; an unresolved app or a missing row yields the
empty result set (`none`). -/
def check_app_connection (db : GatekeeperDB) (userId appId : String) :
    Option (Bool × Nat × List String) :=
  match db.registeredApps.find? (fun a => a.app_id == appId && a.is_active) with
  | none => none
  | some ra =>
      (db.connections.find? (fun c => c.user_id == userId && c.app_uuid == ra.uuid)).map
        (fun c => (c.is_active, c.id, c.granted_scopes))

/-- Result of `authorize_app_connection`: the raised exception for a missing
or inactive app, or the connection id and whether the row is new. -/
inductive AuthorizeResult where
  | appNotFound
  | ok (connection_id : Nat) (is_new : Bool)
deriving DecidableEq

/-- Embedding of the plpgsql `authorize_app_connection`.  An existing
(user, app) row — revoked or not — is updated in place: `is_active := TRUE`,
`granted_scopes := p_granted_scopes`, `revoked_at := NULL`,
`revoked_by := NULL`, `last_used_at := NOW()`; `tokens_issued` is not
touched.  Otherwise a fresh row is inserted (with `tokens_issued` 0) and the
app's `total_users_connected` is incremented.  `gen_random_uuid()` for the
inserted row is the explicit `newId` argument.  Either path appends one
audit event. -/
def authorize_app_connection (db : GatekeeperDB) (now : Int) (newId : Nat)
    (userId appId : String) (scopes : List String) :
    AuthorizeResult × GatekeeperDB :=
  match db.registeredApps.find? (fun a => a.app_id == appId && a.is_active) with
  | none => (.appNotFound, db)
  | some ra =>
      match db.connections.find? (fun c => c.user_id == userId && c.app_uuid == ra.uuid) with
      | some conn =>
          (.ok conn.id false,
           { db with
             connections := db.connections.map (fun c =>
               if c.id == conn.id then
                 { c with
                   is_active := true
                   granted_scopes := scopes
                   revoked_at := none
                   revoked_by := none
                   last_used_at := some now }
               else c)
             auditLog := db.auditLog ++ [⟨some userId, "app_reauthorized", "auth"⟩] })
      | none =>
          (.ok newId true,
           { db with
             connections := db.connections ++
               [{ id := newId
                  user_id := userId
                  app_uuid := ra.uuid
                  is_active := true
                  granted_scopes := scopes
                  revoked_at := none
                  revoked_by := none
                  tokens_issued := 0
                  last_used_at := none
                  authorized_at := now }]
             registeredApps := db.registeredApps.map (fun a =>
               if a.uuid == ra.uuid then
                 { a with total_users_connected := a.total_users_connected + 1 }
               else a)
             auditLog := db.auditLog ++ [⟨some userId, "app_authorized", "auth"⟩] })

/-! ## Token logging (`log_token_issuance`, `log_app_token_issuance`) -/

/-- Embedding of `log_token_issuance` (legacy single-app logging): insert
one `blind_token_log` row.  (The `user_profiles.last_token_issued_at`
timestamp write is outside the modelled state.) -/
def log_token_issuance (db : GatekeeperDB) (newLogId : Nat) (userId : String)
    (nonce tokenHash : String) (now expiresAt : Int) (tier : String) :
    GatekeeperDB :=
  { db with tokenLog := db.tokenLog ++
      [{ id := newLogId
         user_id := userId
         token_nonce := nonce
         token_hash := tokenHash
         issued_at := now
         expires_at := expiresAt
         revoked_at := none
         revocation_reason := none
         tier_at_issuance := tier }] }

/-- Embedding of `log_app_token_issuance`: insert the `blind_token_log`
row, insert the `app_token_log` row linking app and connection, bump the
active connection's `tokens_issued` and the app's statistics. -/
def log_app_token_issuance (db : GatekeeperDB) (newLogId : Nat)
    (userId appId : String) (nonce tokenHash : String) (now expiresAt : Int)
    (tier : String) : GatekeeperDB :=
  let appUuid := (db.registeredApps.find? (fun a => a.app_id == appId)).map (fun a => a.uuid)
  let connId := (db.connections.find? (fun c =>
      c.user_id == userId && (appUuid.map (fun u => c.app_uuid == u)).getD false &&
      c.is_active)).map (fun c => c.id)
  { db with
    tokenLog := db.tokenLog ++
      [{ id := newLogId
         user_id := userId
         token_nonce := nonce
         token_hash := tokenHash
         issued_at := now
         expires_at := expiresAt
         revoked_at := none
         revocation_reason := none
         tier_at_issuance := tier }]
    appTokenLog := db.appTokenLog ++ [(appUuid, connId, nonce)]
    connections := db.connections.map (fun c =>
      if (connId.map (fun i => c.id == i)).getD false then
        { c with
          last_used_at := some now
          tokens_issued := c.tokens_issued + 1 }
      else c)
    registeredApps := db.registeredApps.map (fun a =>
      if (appUuid.map (fun u => a.uuid == u)).getD false then
        { a with total_tokens_issued := a.total_tokens_issued + 1 }
      else a) }

/-! ## CORS origin validation (`_shared/security.ts`) -/

/-- The endpoint's built-in development origins. -/
def DEFAULT_ALLOWED_ORIGINS : List String :=
  ["http://localhost:3000", "http://localhost:5173",
   "http://localhost:8080", "http://localhost:19006"]

/-- JavaScript `origin.replace(/\/$/, '')`: drop one trailing slash. -/
def stripTrailingSlash (s : String) : String :=
  if s.endsWith "/" then s.dropRight 1 else s

/-- Origin normalization: drop a trailing slash and lowercase. -/
def normalizeOrigin (s : String) : String := (stripTrailingSlash s).toLower

/-- One allowed-origin comparison of `validateOrigin`: exact match or
wildcard-subdomain match. -/
def originMatches (no na : String) : Bool :=
  no == na ||
  (na.startsWith "*." &&
    (let domain := na.drop 2
     no.endsWith domain && (no == domain || no.endsWith ("." ++ domain))))

/-- Embedding of `validateOrigin` from `_shared/security.ts`. -/
def validateOrigin (origin : Option String) (allowedOrigins : List String) : Bool :=
  match origin with
  | none => false
  | some o => allowedOrigins.any (fun a => originMatches (normalizeOrigin o) (normalizeOrigin a))

/-! ## The blind-token issuance pipeline (`serve` of the issuance endpoint,
`part_007`) -/

/-- Outcome of one issuance request, after the caller is authenticated.
Constructors carry the response fields the endpoint returns. -/
inductive IssueOutcome where
  | accountSuspended
  | appNotActive
  | originNotAllowed
  | consentRequired (appName : String) (isVerified : Bool)
      (requestedScopes : List String) (allowedScopes : Option (List String))
  | unknownApp
  | rateLimited (retryAfter : Int)
  | issued (token : String) (expiresAt : Nat) (tier : String) (appId : String)
deriving DecidableEq

/-- The HTTP status the endpoint sends for each outcome. -/
def statusOf : IssueOutcome → Nat
  | .accountSuspended => 403
  | .appNotActive => 403
  | .originNotAllowed => 403
  | .consentRequired _ _ _ _ => 403
  | .unknownApp => 404
  | .rateLimited _ => 429
  | .issued _ _ _ _ => 200

/-- Whether the response body carries `requires_consent: true`. -/
def requiresConsentFlag : IssueOutcome → Bool
  | .consentRequired _ _ _ _ => true
  | _ => false

/-- Steps 5-10 of the issuance endpoint, shared by the registered-app branch
and the default-app branch: rate-limit check (keyed `userId:appId`, action
`blind_token`), secret derivation, token generation, token logging (the
app-aware variant when a registered app config is in hand, the legacy one
otherwise) and the audit event. -/
def issueTail (db : GatekeeperDB) (masterSecret userId tier targetAppId : String)
    (appConfig : Option RegisteredApp) (now : Nat) (nonce : String)
    (newLogId : Nat) : IssueOutcome × GatekeeperDB :=
  let rateLimitMax : Nat := match appConfig with
    | some c => if c.rate_limit_tokens_per_hour = 0 then 20 else c.rate_limit_tokens_per_hour
    | none => 20
  let tokenExpiry : Nat := match appConfig with
    | some c => if c.token_expiry_seconds = 0 then 3600 else c.token_expiry_seconds
    | none => 3600
  let tokenVersion : Nat := match appConfig with
    | some c => if c.token_version = 0 then 1 else c.token_version
    | none => 1
  let rl := check_rate_limit db.rateBuckets (now : Int)
    (userId ++ ":" ++ targetAppId) "blind_token" (rateLimitMax : Int) 3600
  let db1 := { db with rateBuckets := rl.2 }
  if ¬ rl.1.allowed then
    (.rateLimited (max 0 (rl.1.reset_at - (now : Int))), db1)
  else
    let signingSecret := getAppSigningSecret masterSecret targetAppId
    let gen := generateBlindToken tier targetAppId tokenExpiry tokenVersion
      signingSecret now nonce
    let tokenHash := hashToken gen.1
    let db2 := match appConfig with
      | some _ =>
          log_app_token_issuance db1 newLogId userId targetAppId nonce tokenHash
            (now : Int) (gen.2.exp : Int) tier
      | none =>
          log_token_issuance db1 newLogId userId nonce tokenHash
            (now : Int) (gen.2.exp : Int) tier
    let db3 := { db2 with auditLog := db2.auditLog ++ [⟨some userId, "blind_token_issued", "token"⟩] }
    (.issued gen.1 gen.2.exp tier targetAppId, db3)

/-- Embedding of the issuance endpoint's `serve` flow from the point where
the caller is authenticated (the JWT check and JSON parsing precede it; the
user id, tier and suspension flag are the result of `auth.getUser` and
`get_user_tier_info`).  Order of checks follows the source: suspension;
registered-app lookup; for a registered app: activity, CORS origin,
consent (`check_app_connection`); for an unregistered app id other than the
reserved default `"xenon-engine"`: unknown app; then the shared tail.  The
consent check is reached only inside the registered-app branch. -/
def issueBlindToken (db : GatekeeperDB) (masterSecret : String)
    (productionOrigins : List String) (userId tier : String)
    (isSuspended : Bool) (bodyAppId : Option String)
    (bodyScopes : Option (List String)) (requestOrigin : Option String)
    (now : Nat) (nonce : String) (newLogId : Nat) :
    IssueOutcome × GatekeeperDB :=
  let targetAppId := match bodyAppId with
    | none => "xenon-engine"
    | some a => if a = "" then "xenon-engine" else a
  let requestedScopes := bodyScopes.getD ["basic"]
  if isSuspended then (.accountSuspended, db)
  else
    match db.registeredApps.find? (fun a => a.app_id == targetAppId) with
    | some appConfig =>
        if ¬ appConfig.is_active then (.appNotActive, db)
        else
          let appAllowedOrigins :=
            if appConfig.allowed_origins ≠ [] then
              appConfig.allowed_origins ++ DEFAULT_ALLOWED_ORIGINS
            else DEFAULT_ALLOWED_ORIGINS ++ productionOrigins
          if requestOrigin.isSome ∧ ¬ validateOrigin requestOrigin appAllowedOrigins then
            (.originNotAllowed, db)
          else
            let conn := check_app_connection db userId targetAppId
            if ¬ ((conn.map (fun c => c.1)).getD false) then
              (.consentRequired appConfig.app_name appConfig.is_verified
                 requestedScopes appConfig.allowed_scopes, db)
            else
              issueTail db masterSecret userId tier targetAppId (some appConfig)
                now nonce newLogId
    | none =>
        if targetAppId ≠ "xenon-engine" then (.unknownApp, db)
        else
          issueTail db masterSecret userId tier targetAppId none now nonce newLogId

/-! ## The revocation endpoint (`revoke-token/index.ts`) -/

/-- Hexadecimal digit test (case-insensitive, as the endpoint's regex). -/
def isHexDigit (c : Char) : Bool :=
  (('0' ≤ c) && (c ≤ '9')) || (('a' ≤ c) && (c ≤ 'f')) || (('A' ≤ c) && (c ≤ 'F'))

/-- The endpoint's UUID-format regex: 8-4-4-4-12 hexadecimal groups
separated by hyphens. -/
def isUuidFormat (s : String) : Bool :=
  s.length == 36 &&
  (List.range 36).all (fun i =>
    let c := s.data.getD i ' '
    if i = 8 ∨ i = 13 ∨ i = 18 ∨ i = 23 then c == '-' else isHexDigit c)

/-- Outcome of one revocation request, after the caller is authenticated.
`serverError` is the endpoint's 500 `Failed to revoke token` answer when
the `revoke_blind_token` RPC reports an error. -/
inductive RevokeOutcome where
  | rateLimited (retryAfter : Int)
  | badRequest
  | notFound
  | serverError
  | ok (revoked_count : Int)
deriving DecidableEq

/-- The HTTP status the revocation endpoint sends for each outcome. -/
def revokeStatusOf : RevokeOutcome → Nat
  | .rateLimited _ => 429
  | .badRequest => 400
  | .notFound => 404
  | .serverError => 500
  | .ok _ => 200

/-- Embedding of the revocation endpoint's `serve` flow from the point where
the caller is authenticated: rate-limit check (which increments as part of
`check_rate_limit`), body validation, then either the revoke-all update
(a direct table update, not the RPC) or the single-nonce path — UUID format
check, ownership lookup, the already-revoked short-circuit answering
success with count 0, and otherwise the `revoke_blind_token` RPC.  An RPC
error is answered with 500 `Failed to revoke token`; since the RPC always
raises (see `revoke_blind_token`), the fresh-revoke path always takes that
return, and the success continuation after it is dead code kept for
fidelity to the JavaScript.  The audit event is appended on the paths that
reach step 4 of the source (the already-revoked short circuit and the
error return come before it). -/
def revokeTokenEndpoint (db : GatekeeperDB) (userId : String)
    (tokenNonce : Option String) (revokeAll : Bool) (now : Int) :
    RevokeOutcome × GatekeeperDB :=
  let rl := check_rate_limit db.rateBuckets now ("user:" ++ userId)
    "token_revoke" 10 3600
  let db1 := { db with rateBuckets := rl.2 }
  if ¬ rl.1.allowed then (.rateLimited (max 0 (rl.1.reset_at - now)), db1)
  else if ((tokenNonce.getD "") == "") && ¬ revokeAll then (.badRequest, db1)
  else if revokeAll then
    let hit := fun (r : TokenLogRow) =>
      r.user_id == userId && r.revoked_at.isNone && decide (now < r.expires_at)
    let cnt := (db1.tokenLog.filter hit).length
    let db2 := { db1 with tokenLog := db1.tokenLog.map (fun r =>
      if hit r then
        { r with revoked_at := some now, revocation_reason := some "user_revoke_all" }
      else r) }
    let db3 := { db2 with auditLog := db2.auditLog ++ [⟨some userId, "tokens_revoked_all", "security"⟩] }
    (.ok (cnt : Int), db3)
  else
    match tokenNonce with
    | none => (.badRequest, db1)
    | some nonce =>
        if ¬ isUuidFormat nonce then (.badRequest, db1)
        else
          match db1.tokenLog.find? (fun r => r.token_nonce == nonce) with
          | none => (.notFound, db1)
          | some row =>
              if row.user_id ≠ userId then (.notFound, db1)
              else if row.revoked_at.isSome then (.ok 0, db1)
              else
                let rv := revoke_blind_token db1.tokenLog now nonce "user_revocation"
                match rv.1 with
                | none => (.serverError, { db1 with tokenLog := rv.2 })
                | some b =>
                    let db2 := { db1 with tokenLog := rv.2 }
                    let db3 := { db2 with auditLog := db2.auditLog ++ [⟨some userId, "token_revoked", "security"⟩] }
                    (.ok (if b then 1 else 0), db3)

/-! ## The consent-granting endpoint (`app-connections/index.ts`, POST) -/

/-- Outcome of a `POST /app-connections` request, after authentication. -/
inductive ConnectOutcome where
  | missingAppId
  | appNotFound
  | appInactive
  | invalidScopes (invalid allowed : List String)
  | authorizeFailed
  | authorized (connection_id : Nat) (is_new : Bool)
deriving DecidableEq

/-- The HTTP status the app-connections endpoint sends for each POST
outcome: scope rejection is `400`, app inactivity `403`, creation `201`,
re-grant `200`. -/
def connectStatusOf : ConnectOutcome → Nat
  | .missingAppId => 400
  | .appNotFound => 404
  | .appInactive => 403
  | .invalidScopes _ _ => 400
  | .authorizeFailed => 500
  | .authorized _ true => 201
  | .authorized _ false => 200

/-- Embedding of the app-connections endpoint's POST branch from the point
where the caller is authenticated: app-id presence, `get_app_config`
lookup, activity check, requested-scope validation against the app's
allowed scopes (`allowed_scopes || ['basic']`), then
`authorize_app_connection`. -/
def appConnectionsPost (db : GatekeeperDB) (userId : String)
    (bodyAppId : Option String) (bodyScopes : Option (List String))
    (now : Int) (newId : Nat) : ConnectOutcome × GatekeeperDB :=
  let scopes := bodyScopes.getD ["basic"]
  if (bodyAppId.getD "") == "" then (.missingAppId, db)
  else
    let appId := bodyAppId.getD ""
    match db.registeredApps.find? (fun a => a.app_id == appId) with
    | none => (.appNotFound, db)
    | some app =>
        if ¬ app.is_active then (.appInactive, db)
        else
          let allowedScopes := app.allowed_scopes.getD ["basic"]
          let invalid := scopes.filter (fun s => ¬ allowedScopes.contains s)
          if invalid ≠ [] then (.invalidScopes invalid allowedScopes, db)
          else
            match authorize_app_connection db now newId userId appId scopes with
            | (.appNotFound, db') => (.authorizeFailed, db')
            | (.ok cid isNew, db') => (.authorized cid isNew, db')

/-! ## Two concurrent callers of `check_rate_limit` (the SQL function body
runs its count `SELECT` and its upsert `INSERT` as two separate statements;
this small-step model interleaves two callers sharing one
identifier/action) -/

/-- Where one caller stands inside the body of `check_rate_limit`: before
the `SELECT`, between the `SELECT` (holding the count it observed) and the
conditional upsert, or returned. -/
inductive RLPhase where
  | ready
  | mid (observed : Int)
  | done (allowed : Bool)
deriving DecidableEq

/-- One statement of one caller: the `SELECT` reads the shared table; the
second step tests the observed count and, when allowed, runs the upsert. -/
def rlStep (now : Int) (ident act : String) (maxReq windowSec : Int) :
    RLPhase × List RateBucket → RLPhase × List RateBucket
  | (.ready, st) => (.mid (rateLimitCount st ident act (now - windowSec)), st)
  | (.mid c, st) =>
      if maxReq ≤ c then (.done false, st)
      else (.done true, upsertBucket ident act (truncMinute now) st)
  | (.done b, st) => (.done b, st)

/-- Interleaved execution of two callers of `check_rate_limit`: the schedule
says which caller runs its next statement. -/
def rlExec2 (now : Int) (ident act : String) (maxReq windowSec : Int) :
    List Bool → RLPhase × RLPhase × List RateBucket →
    RLPhase × RLPhase × List RateBucket
  | [], s => s
  | true :: rest, (p1, p2, st) =>
      let s1 := rlStep now ident act maxReq windowSec (p1, st)
      rlExec2 now ident act maxReq windowSec rest (s1.1, p2, s1.2)
  | false :: rest, (p1, p2, st) =>
      let s2 := rlStep now ident act maxReq windowSec (p2, st)
      rlExec2 now ident act maxReq windowSec rest (p1, s2.1, s2.2)

/-- Total stored count over all buckets. -/
def totalCount (buckets : List RateBucket) : Int :=
  (buckets.map (fun b => b.count)).sum

/-- The admissions a phase accounts for: 1 once the caller returned
allowed, else 0. -/
def donePlus : RLPhase → Int
  | .done true => 1
  | _ => 0

/-! ## Rate-limiter lemmas -/

/-- The upsert adds exactly one to the total stored count: it either
increments the one conflicting bucket or inserts a fresh bucket of count 1. -/
theorem totalCount_upsertBucket (ident act : String) (ws : Int) :
    ∀ buckets : List RateBucket,
    totalCount (upsertBucket ident act ws buckets) = totalCount buckets + 1
  | [] => by simp [upsertBucket, totalCount]
  | b :: bs => by
      by_cases hb : (b.identifier == ident && b.action == act && b.window_start == ws) = true
      · simp only [upsertBucket, if_pos hb, totalCount, List.map_cons, List.sum_cons]
        ring
      · simp only [upsertBucket, if_neg hb, totalCount, List.map_cons, List.sum_cons]
        have ih := totalCount_upsertBucket ident act ws bs
        simp only [totalCount] at ih
        rw [ih]
        ring

/-- One caller's statement preserves the difference between the stored total
and the admissions already granted. -/
theorem rlStep_conservation (now : Int) (ident act : String) (maxReq windowSec : Int)
    (p : RLPhase) (st : List RateBucket) :
    totalCount (rlStep now ident act maxReq windowSec (p, st)).2 -
      donePlus (rlStep now ident act maxReq windowSec (p, st)).1 =
    totalCount st - donePlus p := by
  cases p with
  | ready => simp [rlStep, donePlus]
  | mid c =>
      by_cases h : maxReq ≤ c
      · simp [rlStep, if_pos h, donePlus]
      · simp [rlStep, if_neg h, donePlus, totalCount_upsertBucket]
  | done b => cases b <;> simp [rlStep, donePlus]

/-- Over any interleaving of two callers, the stored total grows by exactly
the number of callers admitted: the upsert loses no increments. -/
theorem rlExec2_conservation (now : Int) (ident act : String) (maxReq windowSec : Int) :
    ∀ (sched : List Bool) (p1 p2 : RLPhase) (st : List RateBucket),
    totalCount (rlExec2 now ident act maxReq windowSec sched (p1, p2, st)).2.2 -
      (donePlus (rlExec2 now ident act maxReq windowSec sched (p1, p2, st)).1 +
       donePlus (rlExec2 now ident act maxReq windowSec sched (p1, p2, st)).2.1) =
    totalCount st - (donePlus p1 + donePlus p2)
  | [], p1, p2, st => by simp [rlExec2]
  | true :: rest, p1, p2, st => by
      have hs := rlStep_conservation now ident act maxReq windowSec p1 st
      have ih := rlExec2_conservation now ident act maxReq windowSec rest
        (rlStep now ident act maxReq windowSec (p1, st)).1 p2
        (rlStep now ident act maxReq windowSec (p1, st)).2
      simp only [rlExec2]
      omega
  | false :: rest, p1, p2, st => by
      have hs := rlStep_conservation now ident act maxReq windowSec p2 st
      have ih := rlExec2_conservation now ident act maxReq windowSec rest
        p1 (rlStep now ident act maxReq windowSec (p2, st)).1
        (rlStep now ident act maxReq windowSec (p2, st)).2
      simp only [rlExec2]
      omega

/-- Running the two statements of `check_rate_limit` in order, alone,
agrees with the embedded function: the two-phase model is the function,
cut at its statement boundary. -/
theorem rlStep_twice_eq_check (now : Int) (ident act : String)
    (maxReq windowSec : Int) (st : List RateBucket) :
    rlStep now ident act maxReq windowSec
      (rlStep now ident act maxReq windowSec (.ready, st)) =
    (.done (check_rate_limit st now ident act maxReq windowSec).1.allowed,
     (check_rate_limit st now ident act maxReq windowSec).2) := by
  by_cases h : maxReq ≤ rateLimitCount st ident act (now - windowSec)
  · simp [rlStep, check_rate_limit, if_pos h]
  · simp [rlStep, check_rate_limit, if_neg h]

/-! ## Claim C3 -/

/-- C3 (counterexample): `check_rate_limit` runs its count-read and its
increment as two separate statements, so two concurrent callers at the
limit boundary can interleave read-read-write-write: with `max_requests = 1`
and an empty table both callers are admitted — more than `max_requests` —
and the final bucket honestly records both increments (count 2). -/
theorem C3_counterexample :
    rlExec2 120 "u1:demo" "blind_token" 1 3600 [true, false, true, false]
      (.ready, .ready, []) =
      (.done true, .done true, [⟨"u1:demo", "blind_token", 120, 2⟩]) ∧
    ¬ (donePlus (rlExec2 120 "u1:demo" "blind_token" 1 3600
         [true, false, true, false] (.ready, .ready, [])).1 +
       donePlus (rlExec2 120 "u1:demo" "blind_token" 1 3600
         [true, false, true, false] (.ready, .ready, [])).2.1 ≤ 1) := by
  decide

/-- C3 (amended): the body of `check_rate_limit` is a count `SELECT`
followed — as a separate statement — by the conditional
`INSERT ... ON CONFLICT DO UPDATE` upsert; the two-phase small-step model
cut at that statement boundary is exactly the embedded function, and the
upsert itself is atomic per bucket: over every interleaving of two callers
the stored total grows by exactly the number of admitted callers (no lost
updates).  The one-atomic-operation reading of the claim, and its
`never more than max_requests admitted` consequence, fail
(`C3_counterexample`). -/
theorem C3_rate_limit_two_statements :
    (∀ (st : List RateBucket) (now : Int) (ident act : String)
       (maxReq windowSec : Int),
      rlStep now ident act maxReq windowSec
          (rlStep now ident act maxReq windowSec (.ready, st)) =
        (.done (check_rate_limit st now ident act maxReq windowSec).1.allowed,
         (check_rate_limit st now ident act maxReq windowSec).2)) ∧
    (∀ (now : Int) (ident act : String) (maxReq windowSec : Int)
       (sched : List Bool) (st : List RateBucket),
      totalCount (rlExec2 now ident act maxReq windowSec sched
          (.ready, .ready, st)).2.2 =
        totalCount st +
          (donePlus (rlExec2 now ident act maxReq windowSec sched
              (.ready, .ready, st)).1 +
           donePlus (rlExec2 now ident act maxReq windowSec sched
              (.ready, .ready, st)).2.1)) := by
  refine ⟨fun st now ident act maxReq windowSec =>
      rlStep_twice_eq_check now ident act maxReq windowSec st, ?_⟩
  · intro now ident act maxReq windowSec sched st
    have h := rlExec2_conservation now ident act maxReq windowSec sched .ready .ready st
    simp only [donePlus] at h ⊢
    omega

/-! ## Claim C6 -/

/-- C6 (counterexample): on deny the source computes `reset_at` as
`(NOW() - window) + window`, the current time — not the expiry of the
oldest bucket still contributing to the count.  One bucket of count 5 at
window-start 1200, checked at time 1600 with a 600-second window and limit
5, is denied with `reset_at = 1600`, while the oldest contributing bucket
leaves the window at 1800. -/
theorem C6_counterexample :
    (check_rate_limit [⟨"u1", "blind_token", 1200, 5⟩] 1600 "u1" "blind_token" 5 600).1.allowed
        = false ∧
    oldestContributingExpiry [⟨"u1", "blind_token", 1200, 5⟩] "u1" "blind_token"
        (1600 - 600) 600 = some 1800 ∧
    (check_rate_limit [⟨"u1", "blind_token", 1200, 5⟩] 1600 "u1" "blind_token" 5 600).1.reset_at
        ≠ 1800 := by
  decide

/-- C6 (amended): when `check_rate_limit` denies, the stored bucket state is
returned entirely unchanged — no bucket is created or incremented — and the
returned `reset_at` equals `(now - window_seconds) + window_seconds`, i.e.
the current time, not the oldest contributing bucket's expiry. -/
theorem C6_deny_leaves_state
    (buckets : List RateBucket) (now : Int) (ident act maxReq windowSec : _)
    (hdeny : (check_rate_limit buckets now ident act maxReq windowSec).1.allowed = false) :
    (check_rate_limit buckets now ident act maxReq windowSec).2 = buckets ∧
    (check_rate_limit buckets now ident act maxReq windowSec).1.reset_at = now := by
  by_cases h : maxReq ≤ rateLimitCount buckets ident act (now - windowSec)
  · constructor
    · simp [check_rate_limit, if_pos h]
    · simp [check_rate_limit, if_pos h]
  · exfalso
    simp [check_rate_limit, if_neg h] at hdeny

/-- C6 (witness): the amended statement applied at the concrete denied
check of the counterexample state. -/
theorem C6_witness :
    (check_rate_limit [⟨"u1", "blind_token", 1200, 5⟩] 1600 "u1" "blind_token" 5 600).1.allowed
        = false ∧
    ((check_rate_limit [⟨"u1", "blind_token", 1200, 5⟩] 1600 "u1" "blind_token" 5 600).2
        = [⟨"u1", "blind_token", 1200, 5⟩] ∧
     (check_rate_limit [⟨"u1", "blind_token", 1200, 5⟩] 1600 "u1" "blind_token" 5 600).1.reset_at
        = 1600) :=
  ⟨by decide,
   C6_deny_leaves_state [⟨"u1", "blind_token", 1200, 5⟩] 1600 "u1" "blind_token" 5 600
     (by decide)⟩

/-! ## Claim C10 -/

/-- C10: for a nonce with no row in the token log, `is_token_revoked`
returns `false` — the `SELECT INTO` leaves its variable NULL and the
`COALESCE(v_revoked, FALSE)` turns that into `false` rather than an
error. -/
theorem C10_unknown_nonce_not_revoked (rows : List TokenLogRow) (nonce : String)
    (h : ∀ r ∈ rows, r.token_nonce ≠ nonce) :
    is_token_revoked rows nonce = false := by
  unfold is_token_revoked
  cases hf : rows.find? (fun r => r.token_nonce == nonce) with
  | none => rfl
  | some r =>
      have hmem := List.mem_of_find?_eq_some hf
      have hp := List.find?_some hf
      rw [beq_iff_eq] at hp
      exact absurd hp (h r hmem)

/-- C10 (witness): a log holding one row for a different nonce answers
`false` for an absent nonce. -/
theorem C10_witness :
    (∀ r ∈ [({ id := 1, user_id := "u1",
               token_nonce := "11111111-1111-1111-1111-111111111111",
               token_hash := "h", issued_at := 0, expires_at := 3600,
               revoked_at := none, revocation_reason := none,
               tier_at_issuance := "free" } : TokenLogRow)],
        r.token_nonce ≠ "22222222-2222-2222-2222-222222222222") ∧
    is_token_revoked
      [{ id := 1, user_id := "u1",
         token_nonce := "11111111-1111-1111-1111-111111111111",
         token_hash := "h", issued_at := 0, expires_at := 3600,
         revoked_at := none, revocation_reason := none,
         tier_at_issuance := "free" }]
      "22222222-2222-2222-2222-222222222222" = false :=
  ⟨by decide, C10_unknown_nonce_not_revoked _ _ (by decide)⟩

/-! ## Claim C4 -/

/-- An unrevoked token-log row used to exercise revocation. -/
def c4RowFresh : TokenLogRow :=
  { id := 1, user_id := "u1",
    token_nonce := "11111111-1111-1111-1111-111111111111",
    token_hash := "h", issued_at := 0, expires_at := 3600,
    revoked_at := none, revocation_reason := none, tier_at_issuance := "free" }

/-- The same row marked revoked (as the endpoint's direct revoke-all update
can leave it). -/
def c4RowRevoked : TokenLogRow :=
  { c4RowFresh with
    revoked_at := some 10
    revocation_reason := some "user_revocation" }

/-- A datastore holding the one not-yet-revoked token. -/
def c4FreshDb : GatekeeperDB :=
  { registeredApps := [], connections := [], rateBuckets := [],
    tokenLog := [c4RowFresh], appTokenLog := [], auditLog := [] }

/-- A datastore holding the one already-revoked token. -/
def c4Db : GatekeeperDB :=
  { registeredApps := [], connections := [], rateBuckets := [],
    tokenLog := [c4RowRevoked], appTokenLog := [], auditLog := [] }

/-- C4 (code bug): the claim states the intended idempotent revocation, but
`revoke_blind_token` declares `v_updated BOOLEAN` and then executes
`RETURN v_updated > 0` — an expression with no `boolean > integer`
operator — so every call raises 42883 and its UPDATE rolls back.
Evaluated at the failing input, one fresh owned token under a well-formed
nonce: the RPC yields the error with the token log unchanged, although the
UPDATE it attempted (and rolled back) would have set `revoked_at` exactly
as the claim requires; the endpoint's first revoke call therefore answers
HTTP 500 `Failed to revoke token` and revokes nothing, instead of setting
`revoked_at`.  Only the already-revoked short circuit — reachable for rows
revoked by the endpoint's direct revoke-all update, which bypasses the
broken RPC — answers success with count 0 as the claim describes. -/
theorem C4_revoke_raises_and_rolls_back :
    revoke_blind_token [c4RowFresh] 10
        "11111111-1111-1111-1111-111111111111" "user_revocation" =
      (none, [c4RowFresh]) ∧
    revoke_blind_token_update [c4RowFresh] 10
        "11111111-1111-1111-1111-111111111111" "user_revocation" =
      [{ c4RowFresh with revoked_at := some 10, revocation_reason := some "user_revocation" }] ∧
    (revokeTokenEndpoint c4FreshDb "u1"
        (some "11111111-1111-1111-1111-111111111111") false 30).1 =
      .serverError ∧
    revokeStatusOf (revokeTokenEndpoint c4FreshDb "u1"
        (some "11111111-1111-1111-1111-111111111111") false 30).1 = 500 ∧
    (revokeTokenEndpoint c4FreshDb "u1"
        (some "11111111-1111-1111-1111-111111111111") false 30).2.tokenLog =
      c4FreshDb.tokenLog ∧
    (revokeTokenEndpoint c4Db "u1"
        (some "11111111-1111-1111-1111-111111111111") false 30).1 = .ok 0 := by
  decide

/-! ## Claim C8 -/

/-- C8: re-granting consent over an existing revoked (user, app) row reuses
that row.  With the app resolvable and a connection row present,
`authorize_app_connection` answers `(connection_id, is_new := false)`; every
row whose id is the reused one ends with `is_active = true`, the newly
granted scopes, and `revoked_at`/`revoked_by` cleared; the `tokens_issued`
column of every row is left exactly as it was (not reset); rows with other
ids pass through unchanged; no row is added; and the other tables are
untouched. -/
theorem C8_regrant_reuses_row (db : GatekeeperDB) (now : Int) (newId : Nat)
    (userId appId : String) (scopes : List String)
    (ra : RegisteredApp) (conn : ConnectionRow)
    (hra : db.registeredApps.find? (fun a => a.app_id == appId && a.is_active) = some ra)
    (hconn : db.connections.find?
        (fun c => c.user_id == userId && c.app_uuid == ra.uuid) = some conn)
    (_hrevoked : conn.is_active = false ∧ conn.revoked_at ≠ none) :
    (authorize_app_connection db now newId userId appId scopes).1 =
        .ok conn.id false ∧
    ((authorize_app_connection db now newId userId appId scopes).2.connections.map
        (fun c => c.tokens_issued)) =
      (db.connections.map (fun c => c.tokens_issued)) ∧
    (∀ c ∈ (authorize_app_connection db now newId userId appId scopes).2.connections,
        c.id = conn.id →
        c.is_active = true ∧ c.granted_scopes = scopes ∧
        c.revoked_at = none ∧ c.revoked_by = none) ∧
    (∀ c ∈ db.connections, c.id ≠ conn.id →
        c ∈ (authorize_app_connection db now newId userId appId scopes).2.connections) ∧
    (authorize_app_connection db now newId userId appId scopes).2.connections.length =
        db.connections.length ∧
    (authorize_app_connection db now newId userId appId scopes).2.registeredApps =
        db.registeredApps ∧
    (authorize_app_connection db now newId userId appId scopes).2.tokenLog =
        db.tokenLog ∧
    (authorize_app_connection db now newId userId appId scopes).2.rateBuckets =
        db.rateBuckets := by
  unfold authorize_app_connection
  simp only [hra, hconn]
  refine ⟨trivial, ?_, ?_, ?_, ?_, trivial, trivial, trivial⟩
  · simp only [List.map_map]
    refine List.map_congr_left ?_
    intro c _
    by_cases hc : c.id = conn.id <;> simp [hc]
  · intro c hc hcid
    simp only [List.mem_map] at hc
    obtain ⟨x, hx, rfl⟩ := hc
    by_cases hxc : x.id = conn.id
    · simp [hxc]
    · rw [if_neg (by simp [hxc])] at hcid
      exact absurd hcid hxc
  · intro c hc hcid
    simp only [List.mem_map]
    refine ⟨c, hc, ?_⟩
    rw [if_neg (by simp [hcid])]
  · simp

/-- A revoked consent row, used to exercise re-granting. -/
def c8Conn : ConnectionRow :=
  { id := 5, user_id := "u1", app_uuid := 9, is_active := false,
    granted_scopes := ["basic"], revoked_at := some 50,
    revoked_by := some "user", tokens_issued := 7, last_used_at := some 40,
    authorized_at := 10 }

/-- A registered, active app owning the revoked consent row. -/
def c8App : RegisteredApp :=
  { uuid := 9, app_id := "demo-app", app_name := "Demo",
    is_active := true, is_verified := false, token_expiry_seconds := 3600,
    token_version := 1, shared_secret_hash := "h",
    rate_limit_tokens_per_hour := 100, allowed_scopes := some ["basic"],
    allowed_origins := [], total_tokens_issued := 3,
    total_users_connected := 1 }

/-- The datastore for the C8 witness. -/
def c8Db : GatekeeperDB :=
  { registeredApps := [c8App], connections := [c8Conn], rateBuckets := [],
    tokenLog := [], appTokenLog := [], auditLog := [] }

/-- C8 (witness): re-granting over the concrete revoked row keeps
`tokens_issued` at 7 and reports `is_new = false`. -/
theorem C8_witness :
    (c8Conn.is_active = false ∧ c8Conn.revoked_at ≠ none) ∧
    ((authorize_app_connection c8Db 60 99 "u1" "demo-app" ["basic"]).1 =
        .ok 5 false ∧
     ((authorize_app_connection c8Db 60 99 "u1" "demo-app" ["basic"]).2.connections.map
        (fun c => c.tokens_issued)) = [7]) := by
  refine ⟨by decide, ?_, ?_⟩
  · exact (C8_regrant_reuses_row c8Db 60 99 "u1" "demo-app" ["basic"] c8App c8Conn
      (by decide) (by decide) (by decide)).1
  · have h := (C8_regrant_reuses_row c8Db 60 99 "u1" "demo-app" ["basic"] c8App c8Conn
      (by decide) (by decide) (by decide)).2.1
    rw [h]
    decide

/-! ## Claim C1 -/

/-- C1 (counterexample): the source derives the per-app signing secret with
message prefix `"app:"`, not the spec's `"tenant:"` — at master secret
`"master-secret"` and app id `"demo-app"` the secret the code derives
differs from `base64(HMAC(master_secret, "tenant:" ++ app_id))`. -/
theorem C1_counterexample :
    getAppSigningSecret "master-secret" "demo-app" ≠
      base64Encode (hmacSha256 (utf8 "master-secret")
        (utf8 ("tenant:" ++ "demo-app"))) := by
  decide

/-- C1 (amended): for every app id other than the reserved default
`"xenon-engine"` (and other than the empty string, which the JavaScript
`!appId` guard also sends to the default), the signing secret is
`base64(HMAC-SHA-256(master_secret, "app:" ++ app_id))`; for the reserved
default the master secret itself is used. -/
theorem C1_secret_derivation (masterSecret appId : String)
    (hne : appId ≠ "xenon-engine") (hempty : appId ≠ "") :
    getAppSigningSecret masterSecret appId =
      base64Encode (hmacSha256 (utf8 masterSecret) (utf8 ("app:" ++ appId))) ∧
    getAppSigningSecret masterSecret "xenon-engine" = masterSecret := by
  constructor
  · unfold getAppSigningSecret
    rw [if_neg (by simp [hne, hempty])]
  · unfold getAppSigningSecret
    rw [if_pos (Or.inl rfl)]

/-- C1 (witness): the amended derivation at the concrete app id
`"demo-app"`. -/
theorem C1_witness :
    (("demo-app" : String) ≠ "xenon-engine" ∧ ("demo-app" : String) ≠ "") ∧
    (getAppSigningSecret "master-secret" "demo-app" =
       base64Encode (hmacSha256 (utf8 "master-secret")
         (utf8 ("app:" ++ "demo-app"))) ∧
     getAppSigningSecret "master-secret" "xenon-engine" = "master-secret") :=
  ⟨⟨by decide, by decide⟩,
   C1_secret_derivation "master-secret" "demo-app" (by decide) (by decide)⟩

/-! ## Claim C7 -/

/-- The registered app of the C7 scenario: active, allowing only the
`"basic"` scope. -/
def c7App : RegisteredApp :=
  { uuid := 3, app_id := "demo-app", app_name := "Demo",
    is_active := true, is_verified := true, token_expiry_seconds := 3600,
    token_version := 1, shared_secret_hash := "h",
    rate_limit_tokens_per_hour := 100, allowed_scopes := some ["basic"],
    allowed_origins := [], total_tokens_issued := 0,
    total_users_connected := 0 }

/-- The datastore of the C7 scenario. -/
def c7Db : GatekeeperDB :=
  { registeredApps := [c7App], connections := [], rateBuckets := [],
    tokenLog := [], appTokenLog := [], auditLog := [] }

/-- C7 (counterexample): a grant naming the disallowed scope `"admin"` is
rejected by the app-connections POST handler with HTTP status 400, not the
403 the claim states. -/
theorem C7_counterexample :
    (appConnectionsPost c7Db "u1" (some "demo-app") (some ["admin"]) 0 1).1 =
      .invalidScopes ["admin"] ["basic"] ∧
    connectStatusOf
      (appConnectionsPost c7Db "u1" (some "demo-app") (some ["admin"]) 0 1).1 = 400 ∧
    connectStatusOf
      (appConnectionsPost c7Db "u1" (some "demo-app") (some ["admin"]) 0 1).1 ≠ 403 := by
  decide

/-- C7 (amended): granting consent with a requested scope set containing
any scope outside the tenant's allowed scopes is rejected with
`InvalidScope` as HTTP status 400 (not 403), and no consent row — indeed no
table at all — is created or modified. -/
theorem C7_invalid_scope_rejected (db : GatekeeperDB) (userId appId : String)
    (scopes : List String) (now : Int) (newId : Nat) (app : RegisteredApp)
    (happ : db.registeredApps.find? (fun a => a.app_id == appId) = some app)
    (hactive : app.is_active = true)
    (hne : (appId == "") = false)
    (hinv : scopes.filter
        (fun s => ¬ (app.allowed_scopes.getD ["basic"]).contains s) ≠ []) :
    (appConnectionsPost db userId (some appId) (some scopes) now newId).1 =
      .invalidScopes
        (scopes.filter (fun s => ¬ (app.allowed_scopes.getD ["basic"]).contains s))
        (app.allowed_scopes.getD ["basic"]) ∧
    connectStatusOf
      (appConnectionsPost db userId (some appId) (some scopes) now newId).1 = 400 ∧
    (appConnectionsPost db userId (some appId) (some scopes) now newId).2 = db := by
  have hact : ¬ ¬ app.is_active = true := by simp [hactive]
  simp only [appConnectionsPost, Option.getD_some, hne, happ, if_neg hact,
    Bool.false_eq_true, if_false, if_pos hinv]
  exact ⟨trivial, rfl, trivial⟩

/-- C7 (witness): the amended statement at the concrete disallowed-scope
request of the counterexample. -/
theorem C7_witness :
    (["admin"].filter
        (fun s => ¬ ((c7App.allowed_scopes.getD ["basic"]).contains s)) ≠ []) ∧
    ((appConnectionsPost c7Db "u1" (some "demo-app") (some ["admin"]) 5 2).1 =
        .invalidScopes
          (["admin"].filter
            (fun s => ¬ ((c7App.allowed_scopes.getD ["basic"]).contains s)))
          (c7App.allowed_scopes.getD ["basic"]) ∧
     connectStatusOf
       (appConnectionsPost c7Db "u1" (some "demo-app") (some ["admin"]) 5 2).1 = 400 ∧
     (appConnectionsPost c7Db "u1" (some "demo-app") (some ["admin"]) 5 2).2 = c7Db) :=
  ⟨by decide,
   C7_invalid_scope_rejected c7Db "u1" "demo-app" ["admin"] 5 2 c7App
     (by decide) (by decide) (by decide) (by decide)⟩

/-! ## Claim C5 -/

/-- C5 (counterexample): the issued token is standard (padded) base64, not
base64url: the concrete token issued for app `"demo-app"` differs from the
base64url rendering of the same payload and signature (the 32-byte
signature alone ends in `'='` under base64 and not under base64url). -/
theorem C5_counterexample :
    (generateBlindToken "free" "demo-app" 3600 1 "secret-1" 1000 "nonce-1").1 ≠
      base64urlEncode (utf8 (jsonOfPayload
        { iat := 1000, exp := 4600, tier := "free", nonce := "nonce-1", app := "demo-app", v := 1 })) ++ "." ++
      base64urlEncode (hmacSha256 (utf8 "secret-1")
        (utf8 (base64Encode (utf8 (jsonOfPayload
          { iat := 1000, exp := 4600, tier := "free", nonce := "nonce-1", app := "demo-app", v := 1 }))))) := by
  decide

/-- C5 (amended): every issued token is
`base64(JSON payload) ++ "." ++ base64(HMAC-SHA-256 signature)` in the
standard padded base64 alphabet (not base64url); the payload record is
exactly `{iat, exp, tier, nonce, app, v}` with `exp = iat + lifetime`; its
serialization carries exactly those six fields in that order and nothing
else; splitting the token at the dot and base64-decoding the first segment
recovers exactly those payload bytes; and the token is a function of tier,
app id, lifetime, version, signing secret, time and nonce alone — no user
identifier, email or pseudonymous identifier is among its inputs. -/
theorem C5_token_wire_format (tier appId : String) (expiry ver : Nat)
    (secret : String) (now : Nat) (nonce : String) :
    (generateBlindToken tier appId expiry ver secret now nonce).1 =
      base64Encode (utf8 (jsonOfPayload
        { iat := now, exp := now + expiry, tier := tier, nonce := nonce, app := appId, v := ver })) ++ "." ++
      signPayload (base64Encode (utf8 (jsonOfPayload
        { iat := now, exp := now + expiry, tier := tier, nonce := nonce, app := appId, v := ver }))) secret ∧
    (generateBlindToken tier appId expiry ver secret now nonce).2 =
      { iat := now, exp := now + expiry, tier := tier, nonce := nonce,
        app := appId, v := ver } ∧
    (generateBlindToken tier appId expiry ver secret now nonce).2.exp =
      (generateBlindToken tier appId expiry ver secret now nonce).2.iat + expiry ∧
    jsonOfPayload { iat := now, exp := now + expiry, tier := tier, nonce := nonce, app := appId, v := ver } =
      "\x7b\"iat\":" ++ toString now ++ ",\"exp\":" ++ toString (now + expiry) ++
      ",\"tier\":" ++ jsonString tier ++ ",\"nonce\":" ++ jsonString nonce ++
      ",\"app\":" ++ jsonString appId ++ ",\"v\":" ++ toString ver ++ "\x7d" ∧
    splitDot (generateBlindToken tier appId expiry ver secret now nonce).1 =
      some (base64Encode (utf8 (jsonOfPayload
          { iat := now, exp := now + expiry, tier := tier, nonce := nonce, app := appId, v := ver })),
        signPayload (base64Encode (utf8 (jsonOfPayload
          { iat := now, exp := now + expiry, tier := tier, nonce := nonce, app := appId, v := ver }))) secret) ∧
    base64Decode (base64Encode (utf8 (jsonOfPayload
        { iat := now, exp := now + expiry, tier := tier, nonce := nonce, app := appId, v := ver }))) =
      some (utf8 (jsonOfPayload
        { iat := now, exp := now + expiry, tier := tier, nonce := nonce, app := appId, v := ver })) := by
  refine ⟨rfl, rfl, rfl, rfl, ?_, ?_⟩
  · exact splitDot_token _ _ (fun x hx => base64Chunks_ne_dot _ x hx)
  · exact base64Decode_base64Encode _ (utf8_lt_256 _)

/-! ## Claim C9 -/

theorem bytesBE_lt_256 (w v : Nat) : ∀ x ∈ bytesBE w v, x < 256 := by
  intro x hx
  unfold bytesBE at hx
  simp only [List.mem_map] at hx
  obtain ⟨i, _, rfl⟩ := hx
  have h256 : (256 : Nat) = 2 ^ 8 := by decide
  rw [h256]
  exact Nat.and_lt_two_pow _ (by decide)

theorem sha256_lt_256 (msg : List Nat) : ∀ x ∈ sha256 msg, x < 256 := by
  intro x hx
  unfold sha256 wordsToBytes at hx
  rw [List.mem_flatten] at hx
  obtain ⟨l, hl, hxl⟩ := hx
  rw [List.mem_map] at hl
  obtain ⟨wd, _, rfl⟩ := hl
  exact bytesBE_lt_256 4 wd x hxl

theorem hmacSha256_lt_256 (key msg : List Nat) : ∀ x ∈ hmacSha256 key msg, x < 256 := by
  intro x hx
  unfold hmacSha256 at hx
  exact sha256_lt_256 _ x hx

/-- Base64 encoding is injective on genuine byte lists: decode inverts it. -/
theorem base64Encode_inj (a b : List Nat) (ha : ∀ x ∈ a, x < 256)
    (hb : ∀ x ∈ b, x < 256) (h : base64Encode a = base64Encode b) : a = b := by
  have hchunks : base64Chunks a = base64Chunks b := congrArg String.data h
  have ha' := base64_roundtrip a ha
  have hb' := base64_roundtrip b hb
  rw [hchunks, hb'] at ha'
  exact (Option.some.injEq _ _).mp ha' |>.symm

/-- Round trip at the wire level: a two-segment token built from an encoded
payload and its signature verifies under the signing secret and yields the
payload bytes back. -/
theorem verify_signPayload (ps secret : String) :
    verifyBlindToken
        (base64Encode (utf8 ps) ++ "." ++
          signPayload (base64Encode (utf8 ps)) secret) secret =
      some (utf8 ps) := by
  rw [verifyBlindToken_eq (base64Encode (utf8 ps)) _ _
      (fun x hx => base64Chunks_ne_dot _ x hx), if_pos rfl]
  exact base64Decode_base64Encode _ (utf8_lt_256 _)

/-- Verification under a secret whose recomputed HMAC differs fails. -/
theorem verify_signPayload_mismatch (ps secret secret2 : String)
    (hdiff : hmacSha256 (utf8 secret2) (utf8 (base64Encode (utf8 ps))) ≠
      hmacSha256 (utf8 secret) (utf8 (base64Encode (utf8 ps)))) :
    verifyBlindToken
        (base64Encode (utf8 ps) ++ "." ++
          signPayload (base64Encode (utf8 ps)) secret) secret2 = none := by
  have hne : ¬ (signPayload (base64Encode (utf8 ps)) secret2 =
      signPayload (base64Encode (utf8 ps)) secret) := by
    intro heq
    exact hdiff (base64Encode_inj _ _ (hmacSha256_lt_256 _ _)
      (hmacSha256_lt_256 _ _) heq)
  rw [verifyBlindToken_eq (base64Encode (utf8 ps)) _ _
      (fun x hx => base64Chunks_ne_dot _ x hx), if_neg hne]

/-- C9 (amended): verifying a token produced by the signing operation with
the same secret succeeds and yields back the original payload bytes; and
verifying it with a different secret fails whenever the HMAC-SHA-256 of the
payload segment under that secret differs from the one under the signing
secret.  (Distinct secrets do not always produce distinct HMACs: a secret
and the same secret extended by a zero byte pad to the same HMAC key block,
so verification under such a different secret still succeeds —
`C9_counterexample`.) -/
theorem C9_sign_verify_roundtrip :
    (∀ (tier appId : String) (expiry ver : Nat) (secret : String) (now : Nat)
       (nonce : String),
      verifyBlindToken (generateBlindToken tier appId expiry ver secret now nonce).1
          secret =
        some (utf8 (jsonOfPayload
          (generateBlindToken tier appId expiry ver secret now nonce).2))) ∧
    (∀ (tier appId : String) (expiry ver : Nat) (secret secret2 : String)
       (now : Nat) (nonce : String),
      hmacSha256 (utf8 secret2)
          (utf8 (base64Encode (utf8 (jsonOfPayload
            (generateBlindToken tier appId expiry ver secret now nonce).2)))) ≠
        hmacSha256 (utf8 secret)
          (utf8 (base64Encode (utf8 (jsonOfPayload
            (generateBlindToken tier appId expiry ver secret now nonce).2)))) →
      verifyBlindToken (generateBlindToken tier appId expiry ver secret now nonce).1
          secret2 = none) := by
  constructor
  · intro tier appId expiry ver secret now nonce
    exact verify_signPayload
      (jsonOfPayload { iat := now, exp := now + expiry, tier := tier, nonce := nonce, app := appId, v := ver })
      secret
  · intro tier appId expiry ver secret secret2 now nonce hdiff
    exact verify_signPayload_mismatch
      (jsonOfPayload { iat := now, exp := now + expiry, tier := tier, nonce := nonce, app := appId, v := ver })
      secret secret2 hdiff

/-- C9 (witness): at the concrete secrets `"a"` and `"b"` the recomputed
HMACs differ, and verification of the `"a"`-signed token under `"b"`
fails, while verification under `"a"` returns the payload bytes. -/
theorem C9_witness :
    (hmacSha256 (utf8 "b")
        (utf8 (base64Encode (utf8 (jsonOfPayload
          (generateBlindToken "free" "demo-app" 3600 1 "a" 1000 "n1").2)))) ≠
      hmacSha256 (utf8 "a")
        (utf8 (base64Encode (utf8 (jsonOfPayload
          (generateBlindToken "free" "demo-app" 3600 1 "a" 1000 "n1").2))))) ∧
    verifyBlindToken (generateBlindToken "free" "demo-app" 3600 1 "a" 1000 "n1").1
        "b" = none ∧
    verifyBlindToken (generateBlindToken "free" "demo-app" 3600 1 "a" 1000 "n1").1
        "a" =
      some (utf8 (jsonOfPayload
        (generateBlindToken "free" "demo-app" 3600 1 "a" 1000 "n1").2)) :=
  ⟨by decide,
   C9_sign_verify_roundtrip.2 "free" "demo-app" 3600 1 "a" "b" 1000 "n1" (by decide),
   C9_sign_verify_roundtrip.1 "free" "demo-app" 3600 1 "a" 1000 "n1"⟩

/-- A secret that differs from `"a"` only by a trailing zero byte. -/
def c9SecretZ : String := ⟨['a', Char.ofNat 0]⟩

/-- C9 (counterexample): verification with a *different* secret does not
always fail — the secret `"a"` followed by a zero byte is a different
secret whose HMAC key zero-pads to the same 64-byte block, so the token
signed under `"a"` verifies successfully under it, refuting the claim's
`any different secret fails`. -/
theorem C9_counterexample :
    c9SecretZ ≠ "a" ∧
    verifyBlindToken (generateBlindToken "free" "demo-app" 3600 1 "a" 1000 "n1").1
        c9SecretZ =
      some (utf8 (jsonOfPayload
        (generateBlindToken "free" "demo-app" 3600 1 "a" 1000 "n1").2)) := by
  constructor
  · decide
  · decide

/-! ## Claim C2 -/

/-- If the plain app-id lookup yields an active app, the consent check's
active-filtered lookup yields the same app. -/
theorem find?_active_of_find? (l : List RegisteredApp) (appId : String)
    (a : RegisteredApp)
    (h : l.find? (fun x => x.app_id == appId) = some a)
    (ha : a.is_active = true) :
    l.find? (fun x => x.app_id == appId && x.is_active) = some a := by
  induction l with
  | nil => simp at h
  | cons y ys ih =>
      by_cases hy : (y.app_id == appId) = true
      · simp only [List.find?, hy, Bool.true_and] at h ⊢
        obtain rfl : y = a := by simpa using h
        simp [ha]
      · have hy' : (y.app_id == appId) = false := Bool.eq_false_iff.mpr hy
        simp only [List.find?, hy', Bool.false_and] at h ⊢
        exact ih h

/-- C2 (counterexample): when the target is the reserved default tenant
`"xenon-engine"` and it is not present in the tenant registry, the
issuance pipeline performs no consent check at all: on an empty datastore —
which in particular holds no consent row — an authenticated, non-suspended
user receives HTTP 200 and a token, not `ConsentRequired`. -/
theorem C2_counterexample :
    statusOf (issueBlindToken
        { registeredApps := [], connections := [], rateBuckets := [],
          tokenLog := [], appTokenLog := [], auditLog := [] }
        "master-secret" [] "u1" "free" false none none none 1000
        "aaaaaaaa-aaaa-aaaa-aaaa-aaaaaaaaaaaa" 1).1 = 200 ∧
    requiresConsentFlag (issueBlindToken
        { registeredApps := [], connections := [], rateBuckets := [],
          tokenLog := [], appTokenLog := [], auditLog := [] }
        "master-secret" [] "u1" "free" false none none none 1000
        "aaaaaaaa-aaaa-aaaa-aaaa-aaaaaaaaaaaa" 1).1 = false := by
  constructor
  · decide
  · decide

/-- C2 (amended): for every authenticated, non-suspended user and every
*registered* target tenant (present in the registry and active, with the
request origin acceptable), if no consent row exists for the (user, tenant)
pair then the token request fails with `ConsentRequired` — HTTP 403 with
`requires_consent: true` — and the datastore is untouched, regardless of
the tenant's verification flag.  The reserved default tenant, when it is
not a registry row, bypasses the consent check entirely
(`C2_counterexample`). -/
theorem C2_consent_required_for_registered (db : GatekeeperDB)
    (masterSecret : String) (productionOrigins : List String)
    (userId tier bodyAppId : String) (bodyScopes : Option (List String))
    (requestOrigin : Option String) (now : Nat) (nonce : String)
    (newLogId : Nat) (appConfig : RegisteredApp)
    (happ : db.registeredApps.find? (fun a => a.app_id == bodyAppId) = some appConfig)
    (hactive : appConfig.is_active = true)
    (hne : ¬ bodyAppId = "")
    (horigin : requestOrigin.isSome →
      validateOrigin requestOrigin
        (if appConfig.allowed_origins ≠ [] then
          appConfig.allowed_origins ++ DEFAULT_ALLOWED_ORIGINS
         else DEFAULT_ALLOWED_ORIGINS ++ productionOrigins) = true)
    (hnoconsent : ∀ c ∈ db.connections,
      ¬ (c.user_id = userId ∧ c.app_uuid = appConfig.uuid)) :
    (issueBlindToken db masterSecret productionOrigins userId tier false
        (some bodyAppId) bodyScopes requestOrigin now nonce newLogId).1 =
      .consentRequired appConfig.app_name appConfig.is_verified
        (bodyScopes.getD ["basic"]) appConfig.allowed_scopes ∧
    statusOf (issueBlindToken db masterSecret productionOrigins userId tier false
        (some bodyAppId) bodyScopes requestOrigin now nonce newLogId).1 = 403 ∧
    requiresConsentFlag (issueBlindToken db masterSecret productionOrigins userId
        tier false (some bodyAppId) bodyScopes requestOrigin now nonce newLogId).1 =
      true ∧
    (issueBlindToken db masterSecret productionOrigins userId tier false
        (some bodyAppId) bodyScopes requestOrigin now nonce newLogId).2 = db := by
  have hn : db.connections.find?
      (fun c => c.user_id == userId && c.app_uuid == appConfig.uuid) = none := by
    rw [List.find?_eq_none]
    intro c hc
    simpa using hnoconsent c hc
  have hconn : check_app_connection db userId bodyAppId = none := by
    unfold check_app_connection
    simp only [find?_active_of_find? db.registeredApps bodyAppId appConfig happ
      hactive, hn, Option.map_none']
  have hor : ¬ (requestOrigin.isSome ∧
      ¬ validateOrigin requestOrigin
        (if appConfig.allowed_origins ≠ [] then
          appConfig.allowed_origins ++ DEFAULT_ALLOWED_ORIGINS
         else DEFAULT_ALLOWED_ORIGINS ++ productionOrigins) = true) := by
    rintro ⟨h1, h2⟩
    exact h2 (horigin h1)
  have hact : ¬ ¬ appConfig.is_active = true := by simp [hactive]
  simp only [issueBlindToken, if_neg hne, happ, if_neg hact, if_neg hor, hconn,
    Bool.false_eq_true, if_false, Option.map_none', Option.getD_none,
    Bool.not_false, not_false_eq_true, if_true, if_pos trivial]
  exact ⟨trivial, rfl, rfl, trivial⟩

/-- The registered, active and *verified* app of the C2 witness scenario. -/
def c2App : RegisteredApp :=
  { uuid := 4, app_id := "demo-app", app_name := "Demo", is_active := true,
    is_verified := true, token_expiry_seconds := 3600, token_version := 1,
    shared_secret_hash := "h", rate_limit_tokens_per_hour := 100,
    allowed_scopes := some ["basic"], allowed_origins := [],
    total_tokens_issued := 0, total_users_connected := 0 }

/-- A datastore with the verified app registered and no consent rows. -/
def c2Db : GatekeeperDB :=
  { registeredApps := [c2App], connections := [], rateBuckets := [],
    tokenLog := [], appTokenLog := [], auditLog := [] }

/-- C2 (witness): with no consent row, a token request against the
registered — and even verified — app yields `ConsentRequired`, HTTP 403,
`requires_consent: true`, datastore untouched. -/
theorem C2_witness :
    (c2Db.registeredApps.find? (fun a => a.app_id == "demo-app") = some c2App ∧
     c2App.is_active = true ∧ c2App.is_verified = true) ∧
    ((issueBlindToken c2Db "master-secret" [] "u1" "free" false (some "demo-app")
        none none 1000 "n1" 1).1 =
      .consentRequired c2App.app_name c2App.is_verified ["basic"]
        c2App.allowed_scopes ∧
     statusOf (issueBlindToken c2Db "master-secret" [] "u1" "free" false
        (some "demo-app") none none 1000 "n1" 1).1 = 403 ∧
     requiresConsentFlag (issueBlindToken c2Db "master-secret" [] "u1" "free"
        false (some "demo-app") none none 1000 "n1" 1).1 = true ∧
     (issueBlindToken c2Db "master-secret" [] "u1" "free" false (some "demo-app")
        none none 1000 "n1" 1).2 = c2Db) :=
  ⟨⟨by decide, by decide, by decide⟩,
   C2_consent_required_for_registered c2Db "master-secret" [] "u1" "free"
     "demo-app" none none 1000 "n1" 1 c2App (by decide) (by decide) (by decide)
     (by decide) (by decide)⟩

end Zule
